import Mathlib

/-!
Verification of the Reflector-Ride-Maps browser code (src/app.js,
src/analytics.js, src/config.js) against its natural-language
specification.  The JavaScript is shallowly embedded: feature properties
become total functions into a JSON-like value type, Mapbox GL style
expressions become the functions they denote on a single feature, the
event handlers become state-transition functions, and fallible fetches
become `Option`-valued functions.
-/

namespace RideMaps

/-- A JSON-like value attached to a map feature (vector-tile or GeoJSON
feature property).  `null` also stands for an absent property, because
Mapbox GL's `get` expression returns null for a missing key. -/
inductive JVal where
| str (s : String)
| num (q : ℚ)
| bool (b : Bool)
| null
deriving DecidableEq, Repr

/-- Feature properties: a total function from keys to values, `JVal.null`
for keys the feature does not carry. -/
def FProps := String → JVal

/-- Mapbox GL `get`: look a property up (missing keys give null, which the
`FProps` representation already encodes). -/
def mbGet (props : FProps) (key : String) : JVal := props key

/-- Mapbox GL `coalesce`: the first non-null argument, else null. -/
def mbCoalesce : List JVal → JVal
| [] => JVal.null
| v :: vs => if v = JVal.null then mbCoalesce vs else v

/-- Mapbox GL `to-number`: numbers unchanged, booleans to 0 or 1, null to 0.
String parsing is not modelled: the features these expressions run over
carry numeric, boolean or absent values, and every theorem below only uses
those cases. -/
def mbToNumber : JVal → ℚ
| JVal.num q => q
| JVal.bool b => if b then 1 else 0
| _ => 0

/-- Mapbox GL `step`: the output of the last stop whose threshold is at
most the input, or the default output when the input is below the first
stop (stop thresholds are listed in ascending order). -/
def mbStep (input : ℚ) (below : String) (stops : List (ℚ × String)) : String :=
stops.foldl (fun acc stop => if stop.1 ≤ input then stop.2 else acc) below

/-- Mapbox GL `match` with literal labels: the output of the first label
equal to the input, else the fallback. -/
def mbMatch : JVal → List (JVal × String) → String → String
| _, [], fallback => fallback
| v, b :: bs, fallback => if v = b.1 then b.2 else mbMatch v bs fallback

/-- The speed input of `getSpeedColorExpression` in src/app.js:
`['to-number', ['coalesce', ['get', 'Speed'], ['get', 'speed'], 0]]`. -/
def speedValue (props : FProps) : ℚ :=
mbToNumber (mbCoalesce [mbGet props "Speed", mbGet props "speed", JVal.num 0])

/-- The category branch of `getSpeedColorExpression` in src/app.js (the
`else` branch, taken when the mode is not 'gradient').  The 'gradient'
branch is a linear color interpolation over the same stops; no claim
concerns it and color-space interpolation is not modelled. -/
def getSpeedColorExpressionCategory (props : FProps) : String :=
mbStep (speedValue props) "#808080"
  [(2, "#DC2626"), (5, "#F97316"), (10, "#FACC15"),
   (15, "#22C55E"), (20, "#3B82F6"), (25, "#6366F1")]

/-- `getRoadQualityColorExpression` in src/app.js: a `match` on the
`road_quality` property with a gray fallback. -/
def getRoadQualityColorExpression (props : FProps) : String :=
mbMatch (mbGet props "road_quality")
  [(JVal.num 1, "#22C55E"), (JVal.num 2, "#84CC16"), (JVal.num 3, "#FACC15"),
   (JVal.num 4, "#F97316"), (JVal.num 5, "#DC2626")]
  "#808080"

/-- The score property key `getTrafficLightColorExpression` selects for an
analysis mode (src/app.js): safety and efficiency get their own score
field, anything else gets `overall_score`. -/
def scoreKey (mode : String) : String :=
if mode = "safety" then "safety_score"
else if mode = "efficiency" then "efficiency_score"
else "overall_score"

/-- `getTrafficLightColorExpression` in src/app.js: a `case` that paints a
light white when its `has_data` property equals false, and otherwise a
`step` over the selected pre-baked score. -/
def getTrafficLightColorExpression (mode : String) (props : FProps) : String :=
if mbGet props "has_data" = JVal.bool false then "#FFFFFF"
else
  mbStep (mbToNumber (mbGet props (scoreKey mode))) "#16A34A"
    [(10, "#22C55E"), (20, "#4ADE80"), (30, "#84CC16"), (40, "#FDE047"),
     (50, "#FACC15"), (60, "#FB923C"), (70, "#F97316"), (80, "#DC2626")]

/-- The step function the spec describes for the traffic-light circle
color in terms of plain threshold comparisons (specification side of the
refinement; the source side is the `step` expression above). -/
def specScoreStepColor (s : ℚ) : String :=
if s < 10 then "#16A34A"
else if s < 20 then "#22C55E"
else if s < 30 then "#4ADE80"
else if s < 40 then "#84CC16"
else if s < 50 then "#FDE047"
else if s < 60 then "#FACC15"
else if s < 70 then "#FB923C"
else if s < 80 then "#F97316"
else "#DC2626"

/-- The per-band speed colors the spec (and the README legend) describes,
as plain threshold comparisons (specification side of the refinement). -/
def specSpeedStepColor (s : ℚ) : String :=
if s < 2 then "#808080"
else if s < 5 then "#DC2626"
else if s < 10 then "#F97316"
else if s < 15 then "#FACC15"
else if s < 20 then "#22C55E"
else if s < 25 then "#3B82F6"
else "#6366F1"

/-- The indicator-dot color computed inline in the traffic-light click
handler of src/app.js: a chain of conditional operators with thresholds at
20, 40, 60 and 80 over five colors. -/
def popupIndicatorColor (displayScore : ℚ) : String :=
if displayScore < 20 then "#22C55E"
else if displayScore < 40 then "#84CC16"
else if displayScore < 60 then "#FACC15"
else if displayScore < 80 then "#F97316"
else "#DC2626"

set_option maxHeartbeats 1000000 in
lemma mbStep_speed (s : ℚ) :
    mbStep s "#808080"
      [(2, "#DC2626"), (5, "#F97316"), (10, "#FACC15"),
       (15, "#22C55E"), (20, "#3B82F6"), (25, "#6366F1")] =
    specSpeedStepColor s := by
  simp only [mbStep, List.foldl, specSpeedStepColor]
  split_ifs <;> first | rfl | linarith

set_option maxHeartbeats 2000000 in
lemma mbStep_trafficLight (s : ℚ) :
    mbStep s "#16A34A"
      [(10, "#22C55E"), (20, "#4ADE80"), (30, "#84CC16"), (40, "#FDE047"),
       (50, "#FACC15"), (60, "#FB923C"), (70, "#F97316"), (80, "#DC2626")] =
    specScoreStepColor s := by
  simp only [mbStep, List.foldl, specScoreStepColor]
  split_ifs <;> first | rfl | linarith

/-- A point feature carrying a numeric `Speed` of 12. -/
def speedProbe : FProps := fun k => if k = "Speed" then JVal.num 12 else JVal.null

/-- A traffic light with data and an `efficiency_score` of 42. -/
def tlProbe : FProps := fun k =>
  if k = "has_data" then JVal.bool true
  else if k = "efficiency_score" then JVal.num 42 else JVal.null

/-- A traffic light with data and a `safety_score` of 5. -/
def tlProbeLow : FProps := fun k =>
  if k = "has_data" then JVal.bool true
  else if k = "safety_score" then JVal.num 5 else JVal.null

/-- A traffic light with data and a `safety_score` of 15. -/
def tlProbeMid : FProps := fun k =>
  if k = "has_data" then JVal.bool true
  else if k = "safety_score" then JVal.num 15 else JVal.null

/-- A segment feature carrying `road_quality` 3. -/
def roadProbe : FProps := fun k =>
  if k = "road_quality" then JVal.num 3 else JVal.null

/-- C4: in category ('step') mode the speed color expression assigns gray
below 2, red on [2,5), orange on [5,10), yellow on [10,15), green on
[15,20), blue on [20,25) and purple from 25 up (the bands written out in
`specSpeedStepColor`), reading `Speed` first, then `speed`, and treating a
point with neither property as speed 0, hence gray. -/
theorem speed_category_colors (props : FProps) (s : ℚ) :
    (props "Speed" = JVal.num s →
      getSpeedColorExpressionCategory props = specSpeedStepColor s) ∧
    (props "Speed" = JVal.null → props "speed" = JVal.num s →
      getSpeedColorExpressionCategory props = specSpeedStepColor s) ∧
    (props "Speed" = JVal.null → props "speed" = JVal.null →
      getSpeedColorExpressionCategory props = "#808080") := by
  refine ⟨fun h => ?_, fun h h' => ?_, fun h h' => ?_⟩
  · have hv : speedValue props = s := by
      simp [speedValue, mbGet, h, mbCoalesce, mbToNumber]
    show mbStep (speedValue props) _ _ = _
    rw [hv, mbStep_speed]
  · have hv : speedValue props = s := by
      simp [speedValue, mbGet, h, h', mbCoalesce, mbToNumber]
    show mbStep (speedValue props) _ _ = _
    rw [hv, mbStep_speed]
  · have hv : speedValue props = 0 := by
      simp [speedValue, mbGet, h, h', mbCoalesce, mbToNumber]
    show mbStep (speedValue props) _ _ = _
    rw [hv, mbStep_speed]
    decide

/-- Witness for C4 at a concrete feature with `Speed` 12 (yellow band). -/
theorem speed_category_colors_witness :
    speedProbe "Speed" = JVal.num 12 ∧
    getSpeedColorExpressionCategory speedProbe = specSpeedStepColor 12 ∧
    specSpeedStepColor 12 = "#FACC15" :=
  ⟨rfl, (speed_category_colors speedProbe 12).1 rfl, by decide⟩

/-- C5: the road-quality color expression maps `road_quality` 1 to green,
2 to light green, 3 to yellow, 4 to orange, 5 to red, and any other value
of the property (a missing property included, since `get` then yields
null) to gray. -/
theorem road_quality_colors (props : FProps) :
    (props "road_quality" = JVal.num 1 →
      getRoadQualityColorExpression props = "#22C55E") ∧
    (props "road_quality" = JVal.num 2 →
      getRoadQualityColorExpression props = "#84CC16") ∧
    (props "road_quality" = JVal.num 3 →
      getRoadQualityColorExpression props = "#FACC15") ∧
    (props "road_quality" = JVal.num 4 →
      getRoadQualityColorExpression props = "#F97316") ∧
    (props "road_quality" = JVal.num 5 →
      getRoadQualityColorExpression props = "#DC2626") ∧
    (props "road_quality" ∉
        ([JVal.num 1, JVal.num 2, JVal.num 3, JVal.num 4, JVal.num 5] : List JVal) →
      getRoadQualityColorExpression props = "#808080") := by
  refine ⟨fun h => ?_, fun h => ?_, fun h => ?_, fun h => ?_, fun h => ?_, fun h => ?_⟩
  all_goals simp only [getRoadQualityColorExpression, mbGet, mbMatch]
  · simp [h]
  · simp [h]
  · simp [h]
  · simp [h]
  · simp [h]
  · simp only [List.mem_cons, List.not_mem_nil, or_false, not_or] at h
    obtain ⟨h1, h2, h3, h4, h5⟩ := h
    simp [h1, h2, h3, h4, h5]

/-- Witness for C5 at a concrete segment with `road_quality` 3. -/
theorem road_quality_colors_witness :
    roadProbe "road_quality" = JVal.num 3 ∧
    getRoadQualityColorExpression roadProbe = "#FACC15" :=
  ⟨rfl, (road_quality_colors roadProbe).2.2.1 rfl⟩

/-- C1: for every analysis mode the traffic-light circle color is a pure
function of the pre-baked per-light properties: the mode picks its score
key (safety and efficiency get their own field, anything else, 'overall'
included, gets `overall_score`), a light with `has_data` false is white,
and otherwise the color is the step function `specScoreStepColor` of that
score; no braking or stop computation enters. -/
theorem trafficLight_precomputed_colors (mode : String) (props : FProps) (s : ℚ) :
    (scoreKey "safety" = "safety_score" ∧ scoreKey "efficiency" = "efficiency_score" ∧
      scoreKey "overall" = "overall_score") ∧
    (props "has_data" = JVal.bool false →
      getTrafficLightColorExpression mode props = "#FFFFFF") ∧
    (props "has_data" = JVal.bool true → props (scoreKey mode) = JVal.num s →
      getTrafficLightColorExpression mode props = specScoreStepColor s) := by
  refine ⟨⟨rfl, rfl, rfl⟩, fun h => ?_, fun h h' => ?_⟩
  · simp [getTrafficLightColorExpression, mbGet, h]
  · simp [getTrafficLightColorExpression, mbGet, h, h', mbToNumber, mbStep_trafficLight]

/-- Witness for C1 at a concrete light with data and efficiency score 42. -/
theorem trafficLight_precomputed_colors_witness :
    tlProbe "has_data" = JVal.bool true ∧
    tlProbe (scoreKey "efficiency") = JVal.num 42 ∧
    getTrafficLightColorExpression "efficiency" tlProbe = specScoreStepColor 42 ∧
    specScoreStepColor 42 = "#FDE047" :=
  ⟨rfl, rfl, (trafficLight_precomputed_colors "efficiency" tlProbe 42).2.2 rfl rfl, by decide⟩

/-- C10 counterexample: at safety score 5 the popup indicator dot is green
`#22C55E` while the circle expression paints the light `#16A34A`, so the
two five- and nine-band scales disagree. -/
theorem popup_circle_color_mismatch :
    popupIndicatorColor 5 = "#22C55E" ∧
    getTrafficLightColorExpression "safety" tlProbeLow = "#16A34A" ∧
    popupIndicatorColor 5 ≠ getTrafficLightColorExpression "safety" tlProbeLow := by
  refine ⟨rfl, ?_, ?_⟩ <;> decide

lemma popupIndicator_eq_specScore_iff (s : ℚ) :
    (popupIndicatorColor s = specScoreStepColor s) ↔
      ((10 ≤ s ∧ s < 20) ∨ (30 ≤ s ∧ s < 40) ∨ (50 ≤ s ∧ s < 60) ∨
        (70 ≤ s ∧ s < 80) ∨ 80 ≤ s) := by
  simp only [popupIndicatorColor, specScoreStepColor]
  rcases lt_or_le s 10 with h1 | h1
  · rw [if_pos (show s < 20 by linarith), if_pos h1]
    refine iff_of_false (by decide) ?_
    rintro (⟨h, _⟩ | ⟨h, _⟩ | ⟨h, _⟩ | ⟨h, _⟩ | h) <;> linarith
  rcases lt_or_le s 20 with h2 | h2
  · rw [if_pos h2, if_neg (not_lt.2 h1), if_pos h2]
    exact iff_of_true rfl (Or.inl ⟨h1, h2⟩)
  rcases lt_or_le s 30 with h3 | h3
  · rw [if_neg (not_lt.2 h2), if_pos (show s < 40 by linarith),
      if_neg (show ¬s < 10 by linarith), if_neg (not_lt.2 h2), if_pos h3]
    refine iff_of_false (by decide) ?_
    rintro (⟨h, h'⟩ | ⟨h, h'⟩ | ⟨h, h'⟩ | ⟨h, h'⟩ | h) <;> linarith
  rcases lt_or_le s 40 with h4 | h4
  · rw [if_neg (not_lt.2 h2), if_pos h4, if_neg (show ¬s < 10 by linarith),
      if_neg (not_lt.2 h2), if_neg (not_lt.2 h3), if_pos h4]
    exact iff_of_true rfl (Or.inr (Or.inl ⟨h3, h4⟩))
  rcases lt_or_le s 50 with h5 | h5
  · rw [if_neg (not_lt.2 h2), if_neg (not_lt.2 h4), if_pos (show s < 60 by linarith),
      if_neg (show ¬s < 10 by linarith), if_neg (not_lt.2 h2), if_neg (not_lt.2 h3),
      if_neg (not_lt.2 h4), if_pos h5]
    refine iff_of_false (by decide) ?_
    rintro (⟨h, h'⟩ | ⟨h, h'⟩ | ⟨h, h'⟩ | ⟨h, h'⟩ | h) <;> linarith
  rcases lt_or_le s 60 with h6 | h6
  · rw [if_neg (not_lt.2 h2), if_neg (not_lt.2 h4), if_pos h6,
      if_neg (show ¬s < 10 by linarith), if_neg (not_lt.2 h2), if_neg (not_lt.2 h3),
      if_neg (not_lt.2 h4), if_neg (not_lt.2 h5), if_pos h6]
    exact iff_of_true rfl (Or.inr (Or.inr (Or.inl ⟨h5, h6⟩)))
  rcases lt_or_le s 70 with h7 | h7
  · rw [if_neg (not_lt.2 h2), if_neg (not_lt.2 h4), if_neg (not_lt.2 h6),
      if_pos (show s < 80 by linarith), if_neg (show ¬s < 10 by linarith),
      if_neg (not_lt.2 h2), if_neg (not_lt.2 h3), if_neg (not_lt.2 h4),
      if_neg (not_lt.2 h5), if_neg (not_lt.2 h6), if_pos h7]
    refine iff_of_false (by decide) ?_
    rintro (⟨h, h'⟩ | ⟨h, h'⟩ | ⟨h, h'⟩ | ⟨h, h'⟩ | h) <;> linarith
  rcases lt_or_le s 80 with h8 | h8
  · rw [if_neg (not_lt.2 h2), if_neg (not_lt.2 h4), if_neg (not_lt.2 h6),
      if_pos h8, if_neg (show ¬s < 10 by linarith), if_neg (not_lt.2 h2),
      if_neg (not_lt.2 h3), if_neg (not_lt.2 h4), if_neg (not_lt.2 h5),
      if_neg (not_lt.2 h6), if_neg (not_lt.2 h7)]
    exact iff_of_true rfl (Or.inr (Or.inr (Or.inr (Or.inl ⟨h7, h8⟩))))
  · rw [if_neg (not_lt.2 h2), if_neg (not_lt.2 h4), if_neg (not_lt.2 h6),
      if_neg (not_lt.2 h8), if_neg (show ¬s < 10 by linarith), if_neg (not_lt.2 h2),
      if_neg (not_lt.2 h3), if_neg (not_lt.2 h4), if_neg (not_lt.2 h5),
      if_neg (not_lt.2 h6), if_neg (not_lt.2 h7)]
    exact iff_of_true rfl (Or.inr (Or.inr (Or.inr (Or.inr h8))))

/-- C10 amended: for every analysis mode and score, the popup indicator
dot color agrees with the circle color of a light with data exactly on
the upper half of each 20-point band ([10,20), [30,40), [50,60), [70,80))
and from 80 up; on the lower halves the circle expression uses an
intermediate shade the five-color popup scale does not have. -/
theorem popup_circle_color_agreement (mode : String) (props : FProps) (s : ℚ) :
    props "has_data" = JVal.bool true → props (scoreKey mode) = JVal.num s →
    (popupIndicatorColor s = getTrafficLightColorExpression mode props ↔
      ((10 ≤ s ∧ s < 20) ∨ (30 ≤ s ∧ s < 40) ∨ (50 ≤ s ∧ s < 60) ∨
        (70 ≤ s ∧ s < 80) ∨ 80 ≤ s)) := by
  intro h h'
  have hc : getTrafficLightColorExpression mode props = specScoreStepColor s := by
    simp [getTrafficLightColorExpression, mbGet, h, h', mbToNumber, mbStep_trafficLight]
  rw [hc]
  exact popupIndicator_eq_specScore_iff s

/-- Witness for the amended C10 at a concrete light with safety score 15,
where both scales give `#22C55E`. -/
theorem popup_circle_color_agreement_witness :
    tlProbeMid "has_data" = JVal.bool true ∧
    tlProbeMid (scoreKey "safety") = JVal.num 15 ∧
    (popupIndicatorColor 15 = getTrafficLightColorExpression "safety" tlProbeMid ↔
      ((10 ≤ (15 : ℚ) ∧ (15 : ℚ) < 20) ∨ ((30 : ℚ) ≤ 15 ∧ (15 : ℚ) < 40) ∨
        ((50 : ℚ) ≤ 15 ∧ (15 : ℚ) < 60) ∨ ((70 : ℚ) ≤ 15 ∧ (15 : ℚ) < 80) ∨
        (80 : ℚ) ≤ 15)) :=
  ⟨rfl, rfl, popup_circle_color_agreement "safety" tlProbeMid 15 rfl rfl⟩

/-- The candidate metadata paths `loadMetadata` in src/app.js tries, in
source order, built from `CONFIG.DATA_URL`. -/
def possiblePaths (dataUrl : String) : List String :=
[dataUrl ++ "/trips_metadata.json", "/trips_metadata.json",
 "./trips_metadata.json", "trips_metadata.json"]

/-- The fetch loop of `loadMetadata`: try each path in order; on the first
success assign the parsed body to `tripsMetadata` and return it; when the
list is exhausted return null with `tripsMetadata` unchanged.  `fetch`
yields `none` when the response is not ok or fetching or body parsing
throws (both land in the next loop iteration in the source); console
logging has no effect on the result and is not modelled.  `α` is the type
of parsed JSON bodies.  The result pairs the return value with the
`tripsMetadata` global afterwards. -/
def loadMetadataLoop (α : Type) (fetch : String → Option α) :
    List String → Option α → Option α × Option α
| [], tm => (none, tm)
| p :: ps, tm =>
  match fetch p with
  | some body => (some body, some body)
  | none => loadMetadataLoop α fetch ps tm

/-- `loadMetadata` in src/app.js as a function of the fetch behaviour and
the initial `tripsMetadata` (null at page load). -/
def loadMetadata (α : Type) (fetch : String → Option α) (dataUrl : String)
    (tm : Option α) : Option α × Option α :=
loadMetadataLoop α fetch (possiblePaths dataUrl) tm

lemma loadMetadataLoop_first_success (α : Type) (fetch : String → Option α)
    (body : α) : ∀ (pre : List String) (p : String) (post : List String)
    (tm : Option α), (∀ q ∈ pre, fetch q = none) → fetch p = some body →
    loadMetadataLoop α fetch (pre ++ p :: post) tm = (some body, some body) := by
  intro pre
  induction pre with
  | nil =>
    intro p post tm _ hp
    simp [loadMetadataLoop, hp]
  | cons q pre ih =>
    intro p post tm hpre hp
    have hq : fetch q = none := hpre q (List.mem_cons_self q pre)
    simp only [List.cons_append, loadMetadataLoop, hq]
    exact ih p post tm (fun r hr => hpre r (List.mem_cons_of_mem q hr)) hp

lemma loadMetadataLoop_all_fail (α : Type) (fetch : String → Option α) :
    ∀ (ps : List String) (tm : Option α), (∀ p ∈ ps, fetch p = none) →
    loadMetadataLoop α fetch ps tm = (none, tm) := by
  intro ps
  induction ps with
  | nil => intro tm _; rfl
  | cons p ps ih =>
    intro tm h
    have hp : fetch p = none := h p (List.mem_cons_self p ps)
    simp only [loadMetadataLoop, hp]
    exact ih tm (fun r hr => h r (List.mem_cons_of_mem p hr))

/-- C2: `loadMetadata` tries exactly the four candidate paths in order;
when some path succeeds it returns the body fetched from the first
succeeding path and stores it in `tripsMetadata`; when every path fails or
throws it returns null and `tripsMetadata` keeps its initial null. -/
theorem loadMetadata_spec (α : Type) (fetch : String → Option α) (dataUrl : String) :
    possiblePaths dataUrl = [dataUrl ++ "/trips_metadata.json", "/trips_metadata.json",
      "./trips_metadata.json", "trips_metadata.json"] ∧
    (∀ (pre : List String) (p : String) (post : List String) (body : α),
      possiblePaths dataUrl = pre ++ p :: post → (∀ q ∈ pre, fetch q = none) →
      fetch p = some body →
      loadMetadata α fetch dataUrl none = (some body, some body)) ∧
    ((∀ p ∈ possiblePaths dataUrl, fetch p = none) →
      loadMetadata α fetch dataUrl none = (none, none)) := by
  refine ⟨rfl, fun pre p post body hsplit hpre hp => ?_, fun h => ?_⟩
  · show loadMetadataLoop α fetch (possiblePaths dataUrl) none = _
    rw [hsplit]
    exact loadMetadataLoop_first_success α fetch body pre p post none hpre hp
  · exact loadMetadataLoop_all_fail α fetch (possiblePaths dataUrl) none h

/-- A concrete fetch behaviour: only the site-root path succeeds. -/
def fetchProbe : String → Option Nat :=
fun p => if p = "/trips_metadata.json" then some 7 else none

/-- Witness for C2: with `fetchProbe` the first candidate fails, the
second succeeds, and `loadMetadata` returns its body and stores it. -/
theorem loadMetadata_spec_witness :
    fetchProbe ("https://d" ++ "/trips_metadata.json") = none ∧
    fetchProbe "/trips_metadata.json" = some 7 ∧
    loadMetadata Nat fetchProbe "https://d" none = (some 7, some 7) :=
  ⟨by decide, rfl,
    (loadMetadata_spec Nat fetchProbe "https://d").2.1
      ["https://d" ++ "/trips_metadata.json"] "/trips_metadata.json"
      ["./trips_metadata.json", "trips_metadata.json"] 7 rfl
      (by intro q hq; simp only [List.mem_singleton] at hq; subst hq; decide) rfl⟩

/-- Split a character list at every occurrence of a separator (helper for
JavaScript's `String.split` with a one-character separator; every split in
this codebase uses one: ':', ',', '_'). -/
def splitOnChar (sep : Char) : List Char → List (List Char)
| [] => [[]]
| c :: cs =>
  let r := splitOnChar sep cs
  if c = sep then [] :: r
  else
    match r with
    | [] => [[c]]
    | g :: gs => (c :: g) :: gs

/-- JavaScript `s.split(sep)` for a one-character separator. -/
def jsSplit (s : String) (sep : Char) : List String :=
(splitOnChar sep s.data).map (fun l => String.mk l)

/-- The numeric value of a decimal digit character. -/
def digitVal (c : Char) : ℕ := c.toNat - 48

/-- The value of a nonempty all-digit character list, else none. -/
def natOfDigits : List Char → Option ℕ
| [] => none
| cs =>
  if cs.all Char.isDigit then
    some (cs.foldl (fun n c => n * 10 + digitVal c) 0)
  else none

/-- JavaScript `Number(s)` on the strings the duration conversions meet:
the empty string is 0, a digit string is its value, and anything else is
NaN, modelled as `none` (signs, decimals and exponents never occur in the
`MM` and `SS` parts these conversions split out). -/
def jsNumber (s : String) : Option ℚ :=
if s = "" then some 0 else (natOfDigits s.data).map (fun n => (n : ℚ))

/-- `Number` applied to a possibly-undefined array entry: destructuring
past the end of `split`'s result gives undefined, and `Number(undefined)`
is NaN. -/
def jsNumberOpt : Option String → Option ℚ
| none => none
| some s => jsNumber s

/-- `parseDurationToSeconds` in src/analytics.js: a falsy (empty) input
gives 0; otherwise split on ':' and return part1 * 60 + part2, NaN
(`none`) when a part is absent or not numeric. -/
def parseDurationToSeconds (duration : String) : Option ℚ :=
if duration = "" then some 0
else
  let parts := jsSplit duration ':'
  match jsNumberOpt parts[0]?, jsNumberOpt parts[1]? with
  | some p1, some p2 => some (p1 * 60 + p2)
  | _, _ => none

/-- The per-trip duration conversion inside `calculateAggregateStats` in
src/app.js: `const [part1, part2] = stats.duration.split(':').map(Number);
const durationSeconds = (part1 * 60 + part2) * 60;` — the seconds the
function adds to `totalTime` for one trip. -/
def appDurationSeconds (duration : String) : Option ℚ :=
let parts := jsSplit duration ':'
match jsNumberOpt parts[0]?, jsNumberOpt parts[1]? with
| some p1, some p2 => some ((p1 * 60 + p2) * 60)
| _, _ => none

/-- C3: the two duration conversions disagree.  For the GNSS duration
string "14:50" (the format src/analytics.js documents as minutes and
seconds), `calculateAggregateStats` adds (14 * 60 + 50) * 60 = 53400
seconds to `totalTime` while `parseDurationToSeconds` returns 890: the
extra factor of 60 in src/app.js treats a minutes:seconds field as
hours:minutes. -/
theorem duration_conversion_bug :
    appDurationSeconds "14:50" = some 53400 ∧
    parseDurationToSeconds "14:50" = some 890 ∧
    appDurationSeconds "14:50" ≠ parseDurationToSeconds "14:50" := by
  have hsplit : jsSplit "14:50" ':' = ["14", "50"] := by decide
  have h14 : jsNumber "14" = some 14 := by
    have hd : natOfDigits "14".data = some 14 := by decide
    simp [jsNumber, hd]
  have h50 : jsNumber "50" = some 50 := by
    have hd : natOfDigits "50".data = some 50 := by decide
    simp [jsNumber, hd]
  have h1 : appDurationSeconds "14:50" = some 53400 := by
    simp only [appDurationSeconds, hsplit]
    simp [jsNumberOpt, h14, h50]
    norm_num
  have h2 : parseDurationToSeconds "14:50" = some 890 := by
    simp only [parseDurationToSeconds, hsplit, if_neg (by decide : ¬("14:50" = ""))]
    simp [jsNumberOpt, h14, h50]
    norm_num
  refine ⟨h1, h2, ?_⟩
  rw [h1, h2]
  intro hEq
  exact absurd (Option.some.inj hEq) (by norm_num)

/-- JavaScript `parseFloat(x) || 0` as applied to the numeric GNSS parts:
undefined or an unparsable string gives NaN, which `|| 0` turns into 0.
The value of a nonnegative integer or decimal literal such as "5.2" (the
only shapes the GNSS line carries). -/
def decimalValue (t : String) : Option ℚ :=
match jsSplit t '.' with
| [a] => (natOfDigits a.data).map (fun n => (n : ℚ))
| [a, b] =>
  match natOfDigits a.data, natOfDigits b.data with
  | some x, some y => some ((x : ℚ) + (y : ℚ) / ((10 : ℚ) ^ b.length))
  | _, _ => none
| _ => none

/-- `parseFloat(parts[i]) || 0` on a possibly-undefined split part. -/
def parseFloatOr0 : Option String → ℚ
| none => 0
| some t => (decimalValue t).getD 0

/-- `parseDurationToSeconds` applied to a possibly-undefined split part:
`parseDurationToSeconds(undefined)` hits the falsy guard and returns 0. -/
def parseDurationOpt : Option String → Option ℚ
| none => some 0
| some s => parseDurationToSeconds s

/-- JavaScript subtraction on possibly-NaN numbers. -/
def jsSub : Option ℚ → Option ℚ → Option ℚ
| some a, some b => some (a - b)
| _, _ => none

/-- JavaScript addition on possibly-NaN numbers. -/
def jsAdd : Option ℚ → Option ℚ → Option ℚ
| some a, some b => some (a + b)
| _, _ => none

/-- Summing a list of possibly-NaN numbers starting from 0, the way the
`+=` accumulations in src/analytics.js do. -/
def jsSum (l : List (Option ℚ)) : Option ℚ := l.foldl jsAdd (some 0)

/-- The trip record `processMetadataForAnalytics` builds for one metadata
entry (src/analytics.js).  `startTime` and `charge` only feed the chart
bucketing and card text, which no claim concerns, and are not carried. -/
structure TripData where
  id : String
  sensorId : String
  distance : ℚ
  avgSpeed : ℚ
  avgSpeedWOS : ℚ
  maxSpeed : ℚ
  duration : Option ℚ
  stopTime : Option ℚ
  movingTime : Option ℚ
deriving DecidableEq, Repr

/-- The per-sensor aggregate record of `processMetadataForAnalytics`. -/
structure SensorData where
  id : String
  trips : List TripData
  totalDistance : ℚ
  totalTime : Option ℚ
  avgSpeed : ℚ
deriving DecidableEq, Repr

/-- Building `tripData` from one GNSS line (src/analytics.js lines 54-87):
split on ',', parse the numeric parts, take the sensor id as the portion
of the trip id before the first underscore, and derive
`movingTime = duration - stopTime`. -/
def makeTripData (tripId gnss : String) : TripData :=
let parts := jsSplit gnss ','
let dur := parseDurationOpt parts[1]?
let stops := parseDurationOpt parts[2]?
{
  id := tripId,
  sensorId := (jsSplit tripId '_').headD "",
  distance := parseFloatOr0 parts[3]?,
  avgSpeed := parseFloatOr0 parts[4]?,
  avgSpeedWOS := parseFloatOr0 parts[5]?,
  maxSpeed := parseFloatOr0 parts[6]?,
  duration := dur,
  stopTime := stops,
  movingTime := jsSub dur stops }

/-- The zeroed sensor record created on first sight of a sensor id. -/
def newSensor (sid : String) : SensorData :=
{ id := sid, trips := [], totalDistance := 0, totalTime := some 0, avgSpeed := 0 }

/-- Pushing a trip onto a sensor record and accumulating its distance and
duration (src/analytics.js lines 101-103). -/
def addTripToSensor (sd : SensorData) (t : TripData) : SensorData :=
{ sd with
  trips := sd.trips ++ [t],
  totalDistance := sd.totalDistance + t.distance,
  totalTime := jsAdd sd.totalTime t.duration }

/-- The `sensors` object as an insertion-ordered association list: look
the trip's sensor id up, create a zeroed record when absent, then push
and accumulate. -/
def addTripToSensors : List (String × SensorData) → TripData → List (String × SensorData)
| [], t => [(t.sensorId, addTripToSensor (newSensor t.sensorId) t)]
| (k, sd) :: rest, t =>
  if k = t.sensorId then (k, addTripToSensor sd t) :: rest
  else (k, sd) :: addTripToSensors rest t

/-- One metadata entry: the trip id and its `GNSS` field (`none` when the
entry has no such field).  The loop body's `if (!gnss) return` also skips
an empty-string field, JavaScript falsiness covering both. -/
def entryTrip (e : String × Option String) : Option TripData :=
match e.2 with
| none => none
| some g => if g = "" then none else some (makeTripData e.1 g)

/-- The main loop of `processMetadataForAnalytics`: walk the entries in
object order, skip falsy GNSS fields, append each built trip and fold it
into the sensors map. -/
def processEntries :
    List (String × Option String) → List TripData → List (String × SensorData) →
    List TripData × List (String × SensorData)
| [], trips, sensors => (trips, sensors)
| (tripId, gOpt) :: rest, trips, sensors =>
  match gOpt with
  | none => processEntries rest trips sensors
  | some g =>
    if g = "" then processEntries rest trips sensors
    else
      let t := makeTripData tripId g
      processEntries rest (trips ++ [t]) (addTripToSensors sensors t)

/-- The closing pass of `processMetadataForAnalytics`: set each sensor's
average speed to the sum of its trips' average speeds over the trip
count. -/
def finalizeSensor (sd : SensorData) : SensorData :=
{ sd with
  avgSpeed := (sd.trips.foldl (fun sum t => sum + t.avgSpeed) 0) / (sd.trips.length : ℚ) }

/-- `processMetadataForAnalytics` in src/analytics.js (for a non-null
metadata object, modelled as its entry list). -/
def processMetadataForAnalytics (metadata : List (String × Option String)) :
    List TripData × List (String × SensorData) :=
let r := processEntries metadata [] []
(r.1, r.2.map (fun p => (p.1, finalizeSensor p.2)))

/-- The per-trip facts of claim C6: the sensor id is the portion of the
trip id before the first underscore, and moving time is duration minus
stop time. -/
def TripWF (t : TripData) : Prop :=
t.sensorId = ((jsSplit t.id '_').headD "") ∧ t.movingTime = jsSub t.duration t.stopTime

/-- The per-sensor invariant maintained by the main loop. -/
def SensorInv (p : String × SensorData) : Prop :=
p.2.id = p.1 ∧ p.2.trips ≠ [] ∧
(∀ t ∈ p.2.trips, t.sensorId = p.1 ∧ TripWF t) ∧
p.2.totalDistance = (p.2.trips.map TripData.distance).sum ∧
p.2.totalTime = jsSum (p.2.trips.map TripData.duration)

lemma makeTripData_wf (tripId gnss : String) : TripWF (makeTripData tripId gnss) :=
⟨rfl, rfl⟩

lemma jsSum_append (l : List (Option ℚ)) (x : Option ℚ) :
    jsSum (l ++ [x]) = jsAdd (jsSum l) x := by
  simp [jsSum, List.foldl_append]

lemma addTripToSensors_inv (t : TripData) (hwf : TripWF t) :
    ∀ sensors, (∀ p ∈ sensors, SensorInv p) →
    ∀ p ∈ addTripToSensors sensors t, SensorInv p := by
  intro sensors
  induction sensors with
  | nil =>
    intro _ p hp
    simp only [addTripToSensors, List.mem_singleton] at hp
    subst hp
    refine ⟨rfl, by simp [addTripToSensor, newSensor], ?_, ?_, ?_⟩
    · intro t' ht'
      simp only [addTripToSensor, newSensor, List.nil_append, List.mem_singleton] at ht'
      subst ht'
      exact ⟨rfl, hwf⟩
    · simp [addTripToSensor, newSensor]
    · simp [addTripToSensor, newSensor, jsSum, jsAdd]
  | cons q rest ih =>
    obtain ⟨k, sd⟩ := q
    intro hInv p hp
    simp only [addTripToSensors] at hp
    by_cases hk : k = t.sensorId
    · rw [if_pos hk] at hp
      rcases List.mem_cons.1 hp with hEq | hMem
      · subst hEq
        obtain ⟨hid, hne, htrips, hdist, htime⟩ := hInv (k, sd) (List.mem_cons_self _ _)
        refine ⟨hid, by simp [addTripToSensor], ?_, ?_, ?_⟩
        · intro t' ht'
          simp only [addTripToSensor, List.mem_append, List.mem_singleton] at ht'
          rcases ht' with h | h
          · exact htrips t' h
          · subst h
            exact ⟨hk.symm, hwf⟩
        · simp only [addTripToSensor]
          rw [hdist, List.map_append, List.sum_append]
          simp
        · simp only [addTripToSensor]
          rw [htime, List.map_append]
          simp only [List.map_cons, List.map_nil]
          exact (jsSum_append _ _).symm
      · exact hInv p (List.mem_cons_of_mem _ hMem)
    · rw [if_neg hk] at hp
      rcases List.mem_cons.1 hp with hEq | hMem
      · subst hEq
        exact hInv (k, sd) (List.mem_cons_self _ _)
      · exact ih (fun r hr => hInv r (List.mem_cons_of_mem _ hr)) p hMem

lemma processEntries_fst :
    ∀ (entries : List (String × Option String)) (trips : List TripData)
      (sensors : List (String × SensorData)),
    (processEntries entries trips sensors).1 = trips ++ entries.filterMap entryTrip := by
  intro entries
  induction entries with
  | nil => intro trips sensors; simp [processEntries]
  | cons e rest ih =>
    intro trips sensors
    obtain ⟨tid, gOpt⟩ := e
    cases gOpt with
    | none => simp [processEntries, entryTrip, ih]
    | some g =>
      by_cases hg : g = ""
      · simp [processEntries, entryTrip, hg, ih]
      · simp [processEntries, entryTrip, hg, ih]

lemma processEntries_snd :
    ∀ (entries : List (String × Option String)) (trips : List TripData)
      (sensors : List (String × SensorData)),
    (∀ p ∈ sensors, SensorInv p) →
    ∀ p ∈ (processEntries entries trips sensors).2, SensorInv p := by
  intro entries
  induction entries with
  | nil =>
    intro trips sensors h p hp
    exact h p hp
  | cons e rest ih =>
    intro trips sensors h p hp
    obtain ⟨tid, gOpt⟩ := e
    cases gOpt with
    | none =>
      simp only [processEntries] at hp
      exact ih trips sensors h p hp
    | some g =>
      by_cases hg : g = ""
      · simp only [processEntries, if_pos hg] at hp
        exact ih trips sensors h p hp
      · simp only [processEntries, if_neg hg] at hp
        exact ih _ _ (addTripToSensors_inv _ (makeTripData_wf tid g) sensors h) p hp

lemma entryTrip_wf (e : String × Option String) (t : TripData) :
    entryTrip e = some t → TripWF t := by
  obtain ⟨tid, gOpt⟩ := e
  cases gOpt with
  | none => intro h; simp [entryTrip] at h
  | some g =>
    by_cases hg : g = ""
    · intro h; simp [entryTrip, hg] at h
    · intro h
      simp only [entryTrip, if_neg hg, Option.some.injEq] at h
      subst h
      exact makeTripData_wf tid g

lemma foldl_add_avgSpeed (l : List TripData) :
    ∀ a : ℚ, l.foldl (fun sum t => sum + t.avgSpeed) a = a + (l.map TripData.avgSpeed).sum := by
  induction l with
  | nil => intro a; simp
  | cons h t ihl => intro a; simp [List.foldl_cons, ihl, add_assoc]

/-- C6: `processMetadataForAnalytics` skips entries whose GNSS field is
absent (or falsy), groups the remaining trips by the portion of the trip
id before the first underscore, and in every returned sensor record the
total distance is the sum of its trips' distances, the total time is the
(NaN-propagating) sum of its trips' durations in seconds, and the average
speed is the arithmetic mean of its trips' average speeds; every returned
trip has movingTime = duration - stopTime. -/
theorem processMetadata_spec (metadata : List (String × Option String)) :
    (processMetadataForAnalytics metadata).1 = metadata.filterMap entryTrip ∧
    (∀ t ∈ (processMetadataForAnalytics metadata).1,
      t.sensorId = ((jsSplit t.id '_').headD "") ∧
      t.movingTime = jsSub t.duration t.stopTime) ∧
    (∀ p ∈ (processMetadataForAnalytics metadata).2,
      p.2.trips ≠ [] ∧
      (∀ t ∈ p.2.trips, t.sensorId = p.1 ∧
        t.sensorId = ((jsSplit t.id '_').headD "")) ∧
      p.2.totalDistance = (p.2.trips.map TripData.distance).sum ∧
      p.2.totalTime = jsSum (p.2.trips.map TripData.duration) ∧
      p.2.avgSpeed = (p.2.trips.map TripData.avgSpeed).sum / (p.2.trips.length : ℚ)) := by
  have hfst : (processMetadataForAnalytics metadata).1 = metadata.filterMap entryTrip := by
    simp [processMetadataForAnalytics, processEntries_fst]
  have hsnd : ∀ p ∈ (processEntries metadata [] []).2, SensorInv p :=
    processEntries_snd metadata [] [] (by intro p hp; simp at hp)
  refine ⟨hfst, ?_, ?_⟩
  · intro t ht
    rw [hfst] at ht
    obtain ⟨e, _, het⟩ := List.mem_filterMap.1 ht
    exact entryTrip_wf e t het
  · intro p hp
    simp only [processMetadataForAnalytics] at hp
    obtain ⟨q, hq, hpq⟩ := List.mem_map.1 hp
    obtain ⟨hid, hne, htrips, hdist, htime⟩ := hsnd q hq
    subst hpq
    refine ⟨by simpa [finalizeSensor] using hne, ?_, ?_, ?_, ?_⟩
    · intro t ht
      simp only [finalizeSensor] at ht
      obtain ⟨hsid, hwf⟩ := htrips t ht
      exact ⟨hsid, hwf.1⟩
    · simpa [finalizeSensor] using hdist
    · simpa [finalizeSensor] using htime
    · simp only [finalizeSensor]
      rw [foldl_add_avgSpeed]
      simp

/-- A concrete three-entry metadata object: two trips of sensor 602B3
(one without a GNSS field, hence skipped) and one of sensor 604F0. -/
def metaProbe : List (String × Option String) :=
[("602B3_Trip4", some "GNSS,14:50,01:12,5.2,12.3,13.1,25.4"),
 ("602B3_Trip5", none),
 ("604F0_Trip1", some "GNSS,10:00,00:30,3.0,15.0,15.5,30.2")]

/-- Witness for C6: the first probe entry's trip is returned, and the
theorem yields its moving-time equation. -/
theorem processMetadata_spec_witness :
    makeTripData "602B3_Trip4" "GNSS,14:50,01:12,5.2,12.3,13.1,25.4"
        ∈ (processMetadataForAnalytics metaProbe).1 ∧
    (makeTripData "602B3_Trip4" "GNSS,14:50,01:12,5.2,12.3,13.1,25.4").movingTime =
      jsSub (makeTripData "602B3_Trip4" "GNSS,14:50,01:12,5.2,12.3,13.1,25.4").duration
        (makeTripData "602B3_Trip4" "GNSS,14:50,01:12,5.2,12.3,13.1,25.4").stopTime := by
  have hmem : makeTripData "602B3_Trip4" "GNSS,14:50,01:12,5.2,12.3,13.1,25.4"
      ∈ (processMetadataForAnalytics metaProbe).1 := by
    rw [(processMetadata_spec metaProbe).1]
    simp [metaProbe, entryTrip]
  exact ⟨hmem, ((processMetadata_spec metaProbe).2.1 _ hmem).2⟩

/-- The value of a trip layer's `line-color` paint property: either a
constant color string or one of the two data-driven expressions. -/
inductive LineColor where
| const (c : String)
| speedExpr (mode : String)
| roadQualityExpr
deriving DecidableEq, Repr

/-- The three line paint properties the handlers set on a trip layer. -/
structure LayerPaint where
  lineOpacity : ℚ
  lineWidth : ℚ
  lineColor : LineColor
deriving DecidableEq, Repr

/-- The mutable browser state of src/app.js that the selection functions
touch: the module-level variables plus the per-layer paint properties.
`hasPopup` models whether `currentPopup` is non-null; DOM row visibility
and the map viewport (`fitBounds`) carry no state a claim concerns. -/
structure AppState where
  tripLayers : List String
  selectedTrip : Option String
  hasPopup : Bool
  showSpeedColors : Bool
  showRoadQuality : Bool
  speedMode : String
  showTrafficLights : Bool
  paint : String → LayerPaint

/-- `map.setPaintProperty` aggregated over one layer: point update of the
paint map. -/
def setPaint (pm : String → LayerPaint) (layerId : String) (p : LayerPaint) :
    String → LayerPaint :=
fun k => if k = layerId then p else pm k

/-- `resetSelection` in src/app.js: clear `selectedTrip`, remove the
popup, and set every trip layer to opacity 0.7, width 3 and the line
color picked by the active coloring mode (speed expression, else road
quality expression, else the default orange). -/
def resetSelection (s : AppState) : AppState :=
let color :=
  if s.showSpeedColors then LineColor.speedExpr s.speedMode
  else if s.showRoadQuality then LineColor.roadQualityExpr
  else LineColor.const "#FF6600"
{ s with
  selectedTrip := none,
  hasPopup := false,
  paint := s.tripLayers.foldl
    (fun pm layerId =>
      setPaint pm layerId { lineOpacity := 7/10, lineWidth := 3, lineColor := color })
    s.paint }

lemma foldl_setPaint (p : LayerPaint) :
    ∀ (l : List String) (pm : String → LayerPaint) (k : String),
    (l.foldl (fun m layerId => setPaint m layerId p) pm) k =
      if k ∈ l then p else pm k := by
  intro l
  induction l with
  | nil => intro pm k; simp
  | cons a l ih =>
    intro pm k
    simp only [List.foldl_cons]
    rw [ih]
    by_cases hk : k ∈ l
    · simp [hk]
    · by_cases hka : k = a
      · simp [setPaint, hka, hk]
      · simp [setPaint, hka, hk, List.mem_cons]

/-- C8: `resetSelection` sets every trip layer's opacity to 0.7, width to
3 and color to the speed expression when `showSpeedColors` is on, else
the road-quality expression when `showRoadQuality` is on, else the
default orange; it clears the selection and the popup; layers outside
`tripLayers` and the four mode flags are untouched. -/
theorem resetSelection_spec (s : AppState) :
    (∀ layerId ∈ s.tripLayers,
      (resetSelection s).paint layerId =
        { lineOpacity := 7/10, lineWidth := 3,
          lineColor :=
            if s.showSpeedColors then LineColor.speedExpr s.speedMode
            else if s.showRoadQuality then LineColor.roadQualityExpr
            else LineColor.const "#FF6600" }) ∧
    (∀ layerId, layerId ∉ s.tripLayers →
      (resetSelection s).paint layerId = s.paint layerId) ∧
    (resetSelection s).selectedTrip = none ∧
    (resetSelection s).hasPopup = false ∧
    (resetSelection s).showSpeedColors = s.showSpeedColors ∧
    (resetSelection s).showRoadQuality = s.showRoadQuality ∧
    (resetSelection s).speedMode = s.speedMode ∧
    (resetSelection s).showTrafficLights = s.showTrafficLights ∧
    (resetSelection s).tripLayers = s.tripLayers := by
  refine ⟨?_, ?_, rfl, rfl, rfl, rfl, rfl, rfl, rfl⟩
  · intro layerId h
    simp only [resetSelection]
    rw [foldl_setPaint]
    simp [h]
  · intro layerId h
    simp only [resetSelection]
    rw [foldl_setPaint]
    simp [h]

/-- A concrete app state: two layers, a highlighted selection, an open
popup, road-quality coloring active. -/
def uiProbe : AppState :=
{ tripLayers := ["602B3_Trip4", "604F0_Trip1"],
  selectedTrip := some "602B3_Trip4",
  hasPopup := true,
  showSpeedColors := false,
  showRoadQuality := true,
  speedMode := "gradient",
  showTrafficLights := false,
  paint := fun _ => { lineOpacity := 1, lineWidth := 5, lineColor := LineColor.const "#FF00FF" } }

/-- Witness for C8 on `uiProbe`: the first layer is restored to opacity
0.7, width 3 and the road-quality expression, and the selection is
cleared. -/
theorem resetSelection_spec_witness :
    "602B3_Trip4" ∈ uiProbe.tripLayers ∧
    (resetSelection uiProbe).paint "602B3_Trip4" =
      { lineOpacity := 7/10, lineWidth := 3,
        lineColor :=
          if uiProbe.showSpeedColors then LineColor.speedExpr uiProbe.speedMode
          else if uiProbe.showRoadQuality then LineColor.roadQualityExpr
          else LineColor.const "#FF6600" } ∧
    (resetSelection uiProbe).selectedTrip = none :=
  ⟨by simp [uiProbe], (resetSelection_spec uiProbe).1 "602B3_Trip4" (by simp [uiProbe]),
    (resetSelection_spec uiProbe).2.2.1⟩

/-- Lower-case one character (JavaScript `toLowerCase` restricted to the
ASCII range, which covers the trip layer ids and search terms here). -/
def charToLower (c : Char) : Char :=
if 'A' ≤ c ∧ c ≤ 'Z' then Char.ofNat (c.toNat + 32) else c

/-- JavaScript `s.toLowerCase()` for ASCII contents. -/
def jsToLowerCase (s : String) : String :=
String.mk (s.data.map charToLower)

/-- An ASCII whitespace character (what `trim` strips here). -/
def isJsSpace (c : Char) : Bool :=
c = ' ' || c = '\t' || c = '\n' || c = '\r'

/-- JavaScript `s.trim()`: strip whitespace from both ends. -/
def jsTrim (s : String) : String :=
String.mk (((s.data.dropWhile isJsSpace).reverse.dropWhile isJsSpace).reverse)

/-- JavaScript `s.includes(sub)`: substring containment, modelled as list
infix on the character data. -/
def jsIncludes (s sub : String) : Bool :=
decide (sub.data <:+: s.data)

/-- `searchAndHighlightTrip` in src/app.js.  A falsy (empty) search term
resets the selection and returns undefined (`none`).  Otherwise the term
is lower-cased and trimmed and the first layer whose lower-cased id
contains it is selected: opacity 1, width 5, magenta line for the match,
opacity 0.15 and width 2 (color untouched) for every other layer, and
the function returns true.  Without a match the state is left alone
(the source only raises an alert) and the function returns false.  The
`fitBounds` zoom touches only the viewport and is not modelled. -/
def searchAndHighlightTrip (s : AppState) (searchTerm : String) :
    AppState × Option Bool :=
if searchTerm = "" then (resetSelection s, none)
else
  let normalized := jsTrim (jsToLowerCase searchTerm)
  match s.tripLayers.find? (fun layerId => jsIncludes (jsToLowerCase layerId) normalized) with
  | some m =>
    ({ s with
       selectedTrip := some m,
       paint := s.tripLayers.foldl
         (fun pm layerId =>
           if layerId = m then
             setPaint pm layerId
               { lineOpacity := 1, lineWidth := 5, lineColor := LineColor.const "#FF00FF" }
           else
             setPaint pm layerId
               { lineOpacity := 3/20, lineWidth := 2, lineColor := (pm layerId).lineColor })
         s.paint },
     some true)
  | none => (s, some false)

lemma find?_first {α : Type} (p : α → Bool) :
    ∀ (l : List α) (m : α), l.find? p = some m →
    ∃ pre post, l = pre ++ m :: post ∧ (∀ x ∈ pre, p x = false) ∧ p m = true := by
  intro l
  induction l with
  | nil => intro m h; simp [List.find?] at h
  | cons a l ih =>
    intro m h
    by_cases ha : p a = true
    · simp only [List.find?_cons, ha] at h
      obtain rfl : a = m := Option.some.inj h
      exact ⟨[], l, rfl, by simp, ha⟩
    · have ha' : p a = false := by revert ha; cases p a <;> simp
      simp only [List.find?_cons, ha'] at h
      obtain ⟨pre, post, hsplit, hpre, hm⟩ := ih m h
      refine ⟨a :: pre, post, by rw [hsplit]; rfl, ?_, hm⟩
      intro x hx
      rcases List.mem_cons.1 hx with rfl | hx
      · exact ha'
      · exact hpre x hx

/-- C7: with a non-empty term, `searchAndHighlightTrip` selects the first
layer (in `tripLayers` order) whose id contains the trimmed lower-cased
term case-insensitively and returns true; when no layer matches it
returns false and the whole state — `selectedTrip` and every layer's
paint included — is unchanged; the empty term resets the selection
instead and returns undefined. -/
theorem search_spec (s : AppState) (term : String) :
    (term ≠ "" → ∀ m,
      s.tripLayers.find?
          (fun layerId => jsIncludes (jsToLowerCase layerId) (jsTrim (jsToLowerCase term)))
        = some m →
      (searchAndHighlightTrip s term).2 = some true ∧
      (searchAndHighlightTrip s term).1.selectedTrip = some m ∧
      jsIncludes (jsToLowerCase m) (jsTrim (jsToLowerCase term)) = true ∧
      (∃ pre post, s.tripLayers = pre ++ m :: post ∧
        ∀ l ∈ pre,
          jsIncludes (jsToLowerCase l) (jsTrim (jsToLowerCase term)) = false)) ∧
    (term ≠ "" →
      (∀ l ∈ s.tripLayers,
        jsIncludes (jsToLowerCase l) (jsTrim (jsToLowerCase term)) = false) →
      searchAndHighlightTrip s term = (s, some false)) ∧
    searchAndHighlightTrip s "" = (resetSelection s, none) := by
  refine ⟨fun hne m hfind => ?_, fun hne hnone => ?_, by simp [searchAndHighlightTrip]⟩
  · obtain ⟨pre, post, hsplit, hpre, hm⟩ := find?_first _ s.tripLayers m hfind
    refine ⟨?_, ?_, hm, pre, post, hsplit, hpre⟩
    · simp only [searchAndHighlightTrip, if_neg hne, hfind]
    · simp only [searchAndHighlightTrip, if_neg hne, hfind]
  · have hfind :
        s.tripLayers.find?
            (fun layerId => jsIncludes (jsToLowerCase layerId) (jsTrim (jsToLowerCase term)))
          = none :=
      List.find?_eq_none.2 (fun x hx => by simp [hnone x hx])
    simp only [searchAndHighlightTrip, if_neg hne, hfind]

/-- Witness for C7: searching `uiProbe` for "Trip4" selects the first
layer and returns true. -/
theorem search_spec_witness :
    ("Trip4" = "" → False) ∧
    uiProbe.tripLayers.find?
        (fun layerId => jsIncludes (jsToLowerCase layerId) (jsTrim (jsToLowerCase "Trip4")))
      = some "602B3_Trip4" ∧
    (searchAndHighlightTrip uiProbe "Trip4").2 = some true ∧
    (searchAndHighlightTrip uiProbe "Trip4").1.selectedTrip = some "602B3_Trip4" :=
  ⟨fun h => by simp at h,
    by decide,
    ((search_spec uiProbe "Trip4").1 (by simp) "602B3_Trip4" (by decide)).1,
    ((search_spec uiProbe "Trip4").1 (by simp) "602B3_Trip4" (by decide)).2.1⟩

/-- The state touched by the two coloring checkboxes in `setupControls`
(src/app.js): the two mode flags, the two checkbox elements, the legend
and speed-mode-group visibility, the current speed mode, and the line
color applied to every trip layer. -/
structure ControlState where
  showSpeedColors : Bool
  showRoadQuality : Bool
  speedChecked : Bool
  roadChecked : Bool
  speedLegendShown : Bool
  speedModeGroupShown : Bool
  roadLegendShown : Bool
  speedMode : String
  appliedLineColor : LineColor
deriving DecidableEq, Repr

/-- The speed-colors checkbox change handler (src/app.js lines 634-661):
record the checkbox, turn road quality off entirely when both would be
on, then apply the speed expression and show its legend, or restore the
default orange and hide them. -/
def onSpeedColorsChange (st : ControlState) (checked : Bool) : ControlState :=
let st1 := { st with showSpeedColors := checked, speedChecked := checked }
let st2 :=
  if st1.showSpeedColors && st1.showRoadQuality then
    { st1 with showRoadQuality := false, roadChecked := false, roadLegendShown := false }
  else st1
if st2.showSpeedColors then
  { st2 with
    appliedLineColor := LineColor.speedExpr st2.speedMode,
    speedLegendShown := true,
    speedModeGroupShown := true }
else
  { st2 with
    appliedLineColor := LineColor.const "#FF6600",
    speedLegendShown := false,
    speedModeGroupShown := false }

/-- The road-quality checkbox change handler (src/app.js lines 666-691):
record the checkbox, turn speed colors off entirely when both would be
on, then apply the road-quality expression and show its legend, or
restore the default orange and hide it. -/
def onRoadQualityChange (st : ControlState) (checked : Bool) : ControlState :=
let st1 := { st with showRoadQuality := checked, roadChecked := checked }
let st2 :=
  if st1.showRoadQuality && st1.showSpeedColors then
    { st1 with
      showSpeedColors := false,
      speedChecked := false,
      speedLegendShown := false,
      speedModeGroupShown := false }
  else st1
if st2.showRoadQuality then
  { st2 with appliedLineColor := LineColor.roadQualityExpr, roadLegendShown := true }
else
  { st2 with appliedLineColor := LineColor.const "#FF6600", roadLegendShown := false }

/-- A change event on one of the two coloring checkboxes. -/
inductive ControlEvent where
| speedChange (checked : Bool)
| roadChange (checked : Bool)
deriving DecidableEq, Repr

/-- Dispatching one checkbox change event. -/
def stepEvent (st : ControlState) : ControlEvent → ControlState
| ControlEvent.speedChange b => onSpeedColorsChange st b
| ControlEvent.roadChange b => onRoadQualityChange st b

/-- Running a sequence of checkbox change events. -/
def runEvents (st : ControlState) (events : List ControlEvent) : ControlState :=
events.foldl stepEvent st

lemma stepEvent_not_both (st : ControlState) (e : ControlEvent) :
    ¬((stepEvent st e).showSpeedColors = true ∧
      (stepEvent st e).showRoadQuality = true) := by
  cases e with
  | speedChange b =>
    cases b <;> by_cases hr : st.showRoadQuality = true <;>
      simp [stepEvent, onSpeedColorsChange, hr]
  | roadChange b =>
    cases b <;> by_cases hs : st.showSpeedColors = true <;>
      simp [stepEvent, onRoadQualityChange, hs]

/-- C9: from a state where the two coloring modes are not both on (both
start false at page load), no sequence of checkbox change events can make
`showSpeedColors` and `showRoadQuality` both true; moreover enabling
either mode while the other is active turns the other mode's flag,
checkbox and legend off. -/
theorem coloring_modes_exclusive (st : ControlState) (events : List ControlEvent) :
    (¬(st.showSpeedColors = true ∧ st.showRoadQuality = true) →
      ¬((runEvents st events).showSpeedColors = true ∧
        (runEvents st events).showRoadQuality = true)) ∧
    (st.showRoadQuality = true →
      (onSpeedColorsChange st true).showRoadQuality = false ∧
      (onSpeedColorsChange st true).roadChecked = false ∧
      (onSpeedColorsChange st true).roadLegendShown = false) ∧
    (st.showSpeedColors = true →
      (onRoadQualityChange st true).showSpeedColors = false ∧
      (onRoadQualityChange st true).speedChecked = false ∧
      (onRoadQualityChange st true).speedLegendShown = false) := by
  refine ⟨?_, fun hr => by simp [onSpeedColorsChange, hr],
    fun hs => by simp [onRoadQualityChange, hs]⟩
  intro h0
  induction events generalizing st with
  | nil => exact h0
  | cons e es ih => exact ih (stepEvent st e) (stepEvent_not_both st e)

/-- The control state at page load: everything off, gradient mode, the
default orange applied. -/
def ctrlProbe : ControlState :=
{ showSpeedColors := false,
  showRoadQuality := false,
  speedChecked := false,
  roadChecked := false,
  speedLegendShown := false,
  speedModeGroupShown := false,
  roadLegendShown := false,
  speedMode := "gradient",
  appliedLineColor := LineColor.const "#FF6600" }

/-- Witness for C9: from the load state, checking speed colors and then
road quality leaves exactly road quality on, never both. -/
theorem coloring_modes_exclusive_witness :
    ¬(ctrlProbe.showSpeedColors = true ∧ ctrlProbe.showRoadQuality = true) ∧
    ¬((runEvents ctrlProbe
          [ControlEvent.speedChange true, ControlEvent.roadChange true]).showSpeedColors = true ∧
      (runEvents ctrlProbe
          [ControlEvent.speedChange true, ControlEvent.roadChange true]).showRoadQuality = true) ∧
    (runEvents ctrlProbe
        [ControlEvent.speedChange true, ControlEvent.roadChange true]).showRoadQuality = true :=
  ⟨by decide,
    (coloring_modes_exclusive ctrlProbe
        [ControlEvent.speedChange true, ControlEvent.roadChange true]).1 (by decide),
    by decide⟩

end RideMaps
